import Mathlib

/-!
Verification of the on-device model session-management layer of the
learning-buddy browser extension (src/lib/modelClients and src/lib/utils).

The TypeScript sources are shallowly embedded: each client method becomes a
pure Lean function over an explicit state record, the host environment
(`self.Writer`, `self.Summarizer`, `self.LanguageModel`) becomes an explicit
`ModelHost` argument, promise resolution/rejection becomes `Except`, and the
number of backend `create()` / `availability()` invocations is returned as an
explicit counter so "zero backend calls" claims are statable.
-/

namespace LearningBuddy

/-! ## JavaScript number model

`_getTuningParams` (promptClient.ts lines 94-142) manipulates JS numbers,
including `NaN` and the infinities, checks `Number.isFinite`, compares with
`<` / `>` (false whenever an operand is `NaN`), and calls `Math.round`.
Finite doubles are modelled as rationals. -/

inductive JSNum where
  | num (q : ℚ)
  | nan
  | inf
  | ninf
deriving DecidableEq, Repr

/-- Number.isFinite: true exactly on finite numbers. -/
def JSNum.isFinite : JSNum → Bool
  | .num _ => true
  | _ => false

/-- JavaScript `<` on numbers: any comparison involving NaN is false. -/
def JSNum.lt : JSNum → JSNum → Bool
  | .num a, .num b => a < b
  | .nan, _ => false
  | _, .nan => false
  | .ninf, .ninf => false
  | .ninf, _ => true
  | _, .ninf => false
  | .inf, _ => false
  | .num _, .inf => true

/-- Math.round: half-up rounding on finite values, identity on NaN and the
infinities (`Math.round(Infinity) = Infinity`, `Math.round(NaN) = NaN`). -/
def jsRound : JSNum → JSNum
  | .num q => .num ((⌊q + 1/2⌋ : ℤ) : ℚ)
  | x => x

/-- JavaScript `a ?? b` nullish coalescing on possibly-undefined numbers. -/
def jsOr (a b : Option JSNum) : Option JSNum :=
  match a with
  | some v => some v
  | none => b

/-! ## JavaScript string trimming

`write` / `writeStreaming` / `summarize` / `summarizeStreaming` and
`_runStreamingPrompt` all normalize their input with
`text.trim().replace(/\s+/g, " ")`. Strings are modelled as `List Char`. -/

/-- Whitespace as matched by JS `String.prototype.trim` and the regex `\s`
(ASCII whitespace, no-break space, BOM; the remaining Unicode space
separators behave identically and are elided). -/
def jsIsWs (c : Char) : Bool :=
  c = ' ' || c = '\t' || c = '\n' || c = '\r' || c = '\x0b' || c = '\x0c' ||
  c = ' ' || c = '﻿'

/-- String.prototype.trim: drop leading and trailing whitespace. -/
def jsTrim (s : List Char) : List Char :=
  ((s.dropWhile jsIsWs).reverse.dropWhile jsIsWs).reverse

/-- `replace(/\s+/g, " ")`: every maximal whitespace run becomes one space. -/
def collapseWs (s : List Char) : List Char :=
  (s.foldr
    (fun c acc =>
      if jsIsWs c then
        (if acc.2 then acc.1 else ' ' :: acc.1, true)
      else
        (c :: acc.1, false))
    ([], false)).1

/-! ## Host environment and the capability probe

`checkModelAvailability` (src/lib/utils/language.ts lines 27-53) receives the
name of a capability namespace on `self` and a list of known states. The host
is modelled explicitly: `api = none` means the namespace is absent from
`self`; `availabilityFn = none` means the namespace exists but has no
`availability` method; `some (.error _)` means `availability()` rejected.
`createOutcome` is what the namespace's `create()` would settle to.
The second component of the probe result counts backend `availability()`
invocations. -/

structure ModelApi where
  availabilityFn : Option (Except Unit String)
  createOutcome : Except Unit Nat

structure ModelHost where
  api : Option ModelApi

/-- checkModelAvailability (language.ts 27-53): returns "no-api" when the
namespace is missing, "unknown" when the availability method is missing or
the state is unrecognized, the state itself when recognized, and
"unavailable" when the backend query throws (the catch block). -/
def checkModelAvailability (api : Option ModelApi) (knownStates : List String) :
    String × Nat :=
  match api with
  | none => ("no-api", 0)
  | some a =>
    match a.availabilityFn with
    | none => ("unknown", 0)
    | some (.ok state) =>
      if knownStates.contains state then (state, 1) else ("unknown", 1)
    | some (.error _) => ("unavailable", 1)

/-- knownStates passed by WriterClient.availability (writerClient.ts 136-142). -/
def writerKnownStates : List String :=
  ["available", "downloadable", "downloading", "unavailable", "unknown"]

/-- knownStates passed by SummarizerClient.availability (summarizerClient.ts 217-223). -/
def summarizerKnownStates : List String :=
  ["available", "downloadable", "downloading", "unavailable", "unknown"]

/-- knownStates passed by PromptClient.availability (promptClient.ts 537-544). -/
def promptKnownStates : List String :=
  ["available", "downloadable", "downloading", "unavailable", "unknown", "no-api"]

/-! ## Errors thrown by the clients -/

inductive ClientErr where
  | apiMissing        -- "… API not available in this context."
  | createFailed      -- rejection of the backend create() promise
  | notInitialized    -- "… not initialized. Call initFromUserGesture() …"
  | noStreamingSupport -- "Summarizer session does not support summarizeStreaming."
  | cardNoId          -- "Card must have an ID to be used with getPairForCard"
deriving DecidableEq, Repr

/-! ## Statement streaming (promptClient.ts 437-466)

`generateStatementStream` wraps the single-shot generation promise in an
async generator whose body is `try { yield await promptFn() } catch { yield
"Error generating statement." }`: the generator catches every generator
failure, so the returned sequence itself never raises; its fragments are the
total `List String` below. -/

def generateStatementStream (wantsFalse : Bool)
    (promptOutcome : Except Unit String) : List String × Bool :=
  (match promptOutcome with
   | .ok result => [result]
   | .error _ => ["Error generating statement."],
   wantsFalse)

/-! ## Writer client (src/lib/modelClients/writerClient.ts)

Sessions are abstract ids (`Nat`). The `signal` / `onDownloadProgress` /
`monitor` plumbing carries no state relevant to the claims and is elided.
Option merging `{ ...this.opts, ...params }` is the field-wise overwrite
below (`none` models an absent property). -/

structure GlobalWriterOpts where
  sharedContext : String
  tone : String
  format : String
  length : String
  outputLanguage : String
deriving DecidableEq, Repr

structure WriterCreateParams where
  sharedContext : Option String := none
  tone : Option String := none
  format : Option String := none
  length : Option String := none
  outputLanguage : Option String := none
deriving DecidableEq, Repr

/-- defaultWriterOpts (writerClient.ts 13-19); `getDefaultLanguage()` is
modelled as the "en" fallback. -/
def defaultWriterOpts : GlobalWriterOpts :=
  { sharedContext := "Simplify this concept for me."
    tone := "casual"
    format := "plain-text"
    length := "medium"
    outputLanguage := "en" }

/-- `const finalOpts = { ...this.opts, ...params }` (writerClient.ts 48). -/
def mergeWriterOpts (o : GlobalWriterOpts) (p : Option WriterCreateParams) :
    GlobalWriterOpts :=
  match p with
  | none => o
  | some p =>
    { sharedContext := p.sharedContext.getD o.sharedContext
      tone := p.tone.getD o.tone
      format := p.format.getD o.format
      length := p.length.getD o.length
      outputLanguage := p.outputLanguage.getD o.outputLanguage }

structure WriterState where
  session : Option Nat
  creating : Bool
  opts : GlobalWriterOpts
  availabilityStatus : Option String
deriving DecidableEq, Repr

/-- Fresh WriterClient instance state (writerClient.ts 23-27). -/
def writerFresh : WriterState :=
  { session := none, creating := false, opts := defaultWriterOpts,
    availabilityStatus := none }

/-- WriterClient.initFromUserGesture (writerClient.ts 34-77), sequential
single-caller semantics (the whole prologue up to `await this.creating` is
one synchronous block). The last component counts backend `create()` calls.
`finalOpts` is passed to `Writer.create()` but — unlike the prompt client —
never written back to `this.opts`. -/
def writerInit (st : WriterState) (params : Option WriterCreateParams)
    (host : ModelHost) : WriterState × Except ClientErr Unit × Nat :=
  let st0 := { st with availabilityStatus := none }
  if st0.session.isSome then (st0, .ok (), 0)
  else if st0.creating then (st0, .ok (), 0)
  else
    match host.api with
    | none => (st0, .error .apiMissing, 0)
    | some a =>
      let _finalOpts := mergeWriterOpts st0.opts params
      match a.createOutcome with
      | .ok s => ({ st0 with session := some s, creating := false }, .ok (), 1)
      | .error _ => ({ st0 with creating := false }, .error .createFailed, 1)

/-! ## Summarizer client (src/lib/modelClients/summarizerClient.ts) -/

structure GlobalSummarizerOpts where
  sharedContext : String
  type : String
  length : String
  format : String
  outputLanguage : String
deriving DecidableEq, Repr

structure SummarizerCreateParams where
  sharedContext : Option String := none
  type : Option String := none
  length : Option String := none
  format : Option String := none
  outputLanguage : Option String := none
deriving DecidableEq, Repr

/-- defaultSummarizerOpts (summarizerClient.ts 187-194). -/
def defaultSummarizerOpts : GlobalSummarizerOpts :=
  { sharedContext := "These are requests to summarize a concept. DO NOT use the name of the concepts in your summary."
    type := "tldr"
    length := "short"
    format := "plain-text"
    outputLanguage := "en" }

/-- `const finalOpts = { ...this.opts, ...params }` (summarizerClient.ts 248). -/
def mergeSummarizerOpts (o : GlobalSummarizerOpts)
    (p : Option SummarizerCreateParams) : GlobalSummarizerOpts :=
  match p with
  | none => o
  | some p =>
    { sharedContext := p.sharedContext.getD o.sharedContext
      type := p.type.getD o.type
      length := p.length.getD o.length
      format := p.format.getD o.format
      outputLanguage := p.outputLanguage.getD o.outputLanguage }

structure SummarizerState where
  session : Option Nat
  creating : Bool
  opts : GlobalSummarizerOpts
  availabilityStatus : Option String
deriving DecidableEq, Repr

def summarizerFresh : SummarizerState :=
  { session := none, creating := false, opts := defaultSummarizerOpts,
    availabilityStatus := none }

/-- SummarizerClient.initFromUserGesture (summarizerClient.ts 230-281),
sequential single-caller semantics; same shape as the writer client, and
likewise `finalOpts` is never persisted back into `this.opts`. -/
def summarizerInit (st : SummarizerState) (params : Option SummarizerCreateParams)
    (host : ModelHost) : SummarizerState × Except ClientErr Unit × Nat :=
  let st0 := { st with availabilityStatus := none }
  if st0.session.isSome then (st0, .ok (), 0)
  else if st0.creating then (st0, .ok (), 0)
  else
    match host.api with
    | none => (st0, .error .apiMissing, 0)
    | some a =>
      let _finalOpts := mergeSummarizerOpts st0.opts params
      match a.createOutcome with
      | .ok s => ({ st0 with session := some s, creating := false }, .ok (), 1)
      | .error _ => ({ st0 with creating := false }, .error .createFailed, 1)

/-! ## Prompt client tuning parameters (promptClient.ts 94-142)

`LanguageModel.params()` fields are modelled as possibly-undefined JS numbers
(`Option JSNum`): the code defends against absent fields with `typeof`
checks and `??`. -/

structure LMParams where
  defaultTopK : Option JSNum
  maxTopK : Option JSNum
  defaultTemperature : Option JSNum
  maxTemperature : Option JSNum
deriving DecidableEq, Repr

/-- topK selection and non-finite fallback (promptClient.ts 112-117):
`params?.topK ?? this.opts.topK ?? modelParams.defaultTopK`, then any
non-number / non-finite value is replaced by `modelParams.defaultTopK`
(an absent default flows on as NaN, since `Math.round(undefined)` is NaN). -/
def topKSelected (pTopK oTopK : Option JSNum) (mp : LMParams) : JSNum :=
  match jsOr (jsOr pTopK oTopK) mp.defaultTopK with
  | some k => if k.isFinite then k else mp.defaultTopK.getD .nan
  | none => mp.defaultTopK.getD .nan

/-- temperature selection and non-finite fallback (promptClient.ts 108-111,
131-133): `params?.temperature ?? this.opts.temperature ??
modelParams.defaultTemperature`, with non-number / non-finite values replaced
by `modelParams.defaultTemperature ?? 1`. -/
def tempSelected (pTemp oTemp : Option JSNum) (mp : LMParams) : JSNum :=
  match jsOr (jsOr pTemp oTemp) mp.defaultTemperature with
  | some t => if t.isFinite then t else mp.defaultTemperature.getD (.num 1)
  | none => mp.defaultTemperature.getD (.num 1)

/-- topK clamping (promptClient.ts 118-124): `if (topK < 1) topK = 1;
if (topK > maxTopK) topK = maxTopK;` with JS comparisons. -/
def clampTopK (k maxTopK : JSNum) : JSNum :=
  let k1 := if JSNum.lt k (.num 1) then .num 1 else k
  if JSNum.lt maxTopK k1 then maxTopK else k1

/-- temperature clamping (promptClient.ts 126-139): `maxT` is
`maxTemperature` when it is a number, else 2; `if (temperature < 0)
temperature = 0; if (temperature > maxT) temperature = maxT;`. -/
def clampTemp (t maxT : JSNum) : JSNum :=
  let t1 := if JSNum.lt t (.num 0) then .num 0 else t
  if JSNum.lt maxT t1 then maxT else t1

/-- PromptClient._getTuningParams (promptClient.ts 94-142). Returns
`(temperature, topK)`; both are omitted when the device does not support
topK (`typeof maxTopK !== "number" || maxTopK <= 0`). -/
def getTuningParams (pTemp pTopK oTemp oTopK : Option JSNum) (mp : LMParams) :
    Option JSNum × Option JSNum :=
  match mp.maxTopK with
  | none => (none, none)
  | some m =>
    if JSNum.lt (.num 0) m then
      (some (clampTemp (tempSelected pTemp oTemp mp)
              (mp.maxTemperature.getD (.num 2))),
       some (clampTopK (jsRound (topKSelected pTopK oTopK mp)) m))
    else (none, none)

/-! ## Prompt client (src/lib/modelClients/promptClient.ts)

`history` is kept as an opaque message list; the `expectedInputs` /
`expectedOutputs` modality descriptors are constants irrelevant to every
claim and are elided from the option record. -/

structure GlobalPromptOpts where
  systemPrompt : String
  history : List String
  temperature : Option JSNum := none
  topK : Option JSNum := none
deriving DecidableEq, Repr

structure PromptCreateParams where
  systemPrompt : Option String := none
  history : Option (List String) := none
  temperature : Option JSNum := none
  topK : Option JSNum := none
deriving DecidableEq, Repr

/-- defaultPromptOpts (promptClient.ts 63-72). -/
def defaultPromptOpts : GlobalPromptOpts :=
  { systemPrompt := "You are a helpful on-device assistant."
    history := [] }

/-- `const merged = { ...this.opts, ...params }` (promptClient.ts 164). -/
def mergePromptOpts (o : GlobalPromptOpts) (p : Option PromptCreateParams) :
    GlobalPromptOpts :=
  match p with
  | none => o
  | some p =>
    { systemPrompt := p.systemPrompt.getD o.systemPrompt
      history := p.history.getD o.history
      temperature := jsOr p.temperature o.temperature
      topK := jsOr p.topK o.topK }

structure PromptState where
  session : Option Nat
  creating : Option Nat   -- id of the in-flight create() promise, if any
  opts : GlobalPromptOpts
  availabilityStatus : Option String
deriving DecidableEq, Repr

/-- Fresh PromptClient instance state (promptClient.ts 75-79). -/
def promptFresh : PromptState :=
  { session := none, creating := none, opts := defaultPromptOpts,
    availabilityStatus := none }

/-- Options persisted back on successful creation (promptClient.ts 164,
179, 204-205, 213): the merged options with the sanitized tuning values
written into them. -/
def promptEffectiveOpts (o : GlobalPromptOpts) (params : Option PromptCreateParams)
    (mp : LMParams) : GlobalPromptOpts :=
  let merged := mergePromptOpts o params
  let tk := getTuningParams (params.bind (·.temperature)) (params.bind (·.topK))
    o.temperature o.topK mp
  { merged with temperature := tk.1, topK := tk.2 }

/-- PromptClient.initFromUserGesture (promptClient.ts 144-221), sequential
single-caller semantics (one caller runs to completion before the next
starts; the interleaved semantics is modelled separately below). The last
component counts backend `LanguageModel.create()` calls. -/
def promptInit (st : PromptState) (params : Option PromptCreateParams)
    (host : ModelHost) (mp : LMParams) :
    PromptState × Except ClientErr Unit × Nat :=
  let st0 := { st with availabilityStatus := none }
  if st0.session.isSome then (st0, .ok (), 0)
  else if st0.creating.isSome then (st0, .ok (), 0)
  else
    match host.api with
    | none => (st0, .error .apiMissing, 0)
    | some a =>
      let merged2 := promptEffectiveOpts st0.opts params mp
      match a.createOutcome with
      | .ok s =>
        ({ st0 with session := some s, creating := none, opts := merged2 },
         .ok (), 1)
      | .error _ => ({ st0 with creating := none }, .error .createFailed, 1)

/-! ## Streaming entry points

Each streaming method either throws (session missing), returns the empty
async generator without touching the backend, or passes the normalized input
to the backend session's streaming method. `backendStream input` records
that — and with which input — the backend was invoked. -/

inductive StreamResult where
  | emptyStream                     -- the inline `async function* () {}` branch
  | backendStream (input : List Char) -- session.<method>Streaming(input, …)
deriving DecidableEq, Repr

/-- Fragments yielded by a stream result, given what the backend session
would yield for an input: the empty generator yields nothing. -/
def streamFragments (backend : List Char → List (List Char)) :
    StreamResult → List (List Char)
  | .emptyStream => []
  | .backendStream input => backend input

/-- WriterClient.writeStreaming (writerClient.ts 103-124). -/
def writeStreaming (session : Option Nat) (text : List Char) :
    Except ClientErr StreamResult :=
  match session with
  | none => .error .notInitialized
  | some _ =>
    let input := collapseWs (jsTrim text)
    if input.isEmpty then .ok .emptyStream
    else .ok (.backendStream input)

/-- SummarizerClient.summarizeStreaming (summarizerClient.ts 308-335);
`hasStreamFn` models the `typeof this.session.summarizeStreaming !==
'function'` guard, which runs only after the empty-input short-circuit. -/
def summarizeStreaming (session : Option Nat) (hasStreamFn : Bool)
    (text : List Char) : Except ClientErr StreamResult :=
  match session with
  | none => .error .notInitialized
  | some _ =>
    let input := collapseWs (jsTrim text)
    if input.isEmpty then .ok .emptyStream
    else if !hasStreamFn then .error .noStreamingSupport
    else .ok (.backendStream input)

/-- PromptClient._runStreamingPrompt (promptClient.ts 282-305); `builtText`
is the output of the `builder()` thunk. -/
def runStreamingPrompt (session : Option Nat) (builtText : List Char) :
    Except ClientErr StreamResult :=
  match session with
  | none => .error .notInitialized
  | some _ =>
    let raw := collapseWs (jsTrim builtText)
    if raw.isEmpty then .ok .emptyStream
    else .ok (.backendStream raw)

/-! ## Generation cache (promptClient.ts 468-485) -/

structure Card where
  id : Option Nat      -- Dexie auto-increment key; optional before insertion
  front : String
  concept : String
deriving DecidableEq, Repr

structure GeneratedPair where
  trueText : String
  falseText : String
deriving DecidableEq, Repr

def pairLookup (i : Nat) (cache : List (Nat × GeneratedPair)) :
    Option GeneratedPair :=
  (cache.find? (fun e => e.1 == i)).map (·.2)

/-- PromptClient.getPairForCard (promptClient.ts 468-485). `gen` is the pair
the two concurrent sentence generations would produce on this call; the last
component counts generator invocations (each invocation issues the two
backend generation calls). `if (!card.id)` throws on an absent id and — 0
being falsy — on id 0. -/
def getPairForCard (cache : List (Nat × GeneratedPair)) (card : Card)
    (gen : GeneratedPair) :
    Except ClientErr (List (Nat × GeneratedPair) × GeneratedPair × Nat) :=
  match card.id with
  | none => .error .cardNoId
  | some i =>
    if i = 0 then .error .cardNoId
    else
      match pairLookup i cache with
      | some hit => .ok (cache, hit, 0)
      | none => .ok ((i, gen) :: cache, gen, 1)

/-! ## Interleaved semantics of PromptClient.initFromUserGesture

JavaScript is single-threaded and cooperative: a caller runs synchronously
until its next `await`. `initFromUserGesture` has its first suspension point
at `await this._getTuningParams(params)` (promptClient.ts 179, awaiting
`LanguageModel.params()` at line 97) — after the `this.session` /
`this.creating` checks (149-155) but before `this.creating` is assigned
(209). The machine below runs each caller in these source-given segments:

* `start → atParams`: lines 144-177 (state checks, API check, option merge);
* `atParams → awaitingCreate`: lines 179-220 (tuning computed, `this.creating`
  set, `LanguageModel.create()` invoked — counted);
* promise settlement: the `.then` / `.finally` handlers (210-218) plus
  resumption of any caller awaiting that promise (152-155). -/

inductive PCallerPC where
  | start
  | atParams (merged : GlobalPromptOpts)
  | awaitingCreate (pid : Nat) (merged2 : GlobalPromptOpts)
  | awaitingOther (pid : Nat)
  | finished (r : Except ClientErr Unit)
deriving Repr

structure PromptMachine where
  st : PromptState
  callers : List (PCallerPC × Option PromptCreateParams)
  createCalls : Nat
  nextPid : Nat
deriving Repr

/-- Advance caller `i` through its next synchronous segment (a no-op while
the caller is parked on an `await` that has not settled, or already done). -/
def promptStepCaller (hasLM : Bool) (mp : LMParams) (m : PromptMachine)
    (i : Nat) : PromptMachine :=
  match m.callers.get? i with
  | none => m
  | some (pc, params) =>
    match pc with
    | .start =>
      let st0 := { m.st with availabilityStatus := none }
      if st0.session.isSome then
        { m with st := st0, callers := m.callers.set i (.finished (.ok ()), params) }
      else
        match st0.creating with
        | some p =>
          { m with st := st0, callers := m.callers.set i (.awaitingOther p, params) }
        | none =>
          if !hasLM then
            { m with st := st0
                     callers := m.callers.set i (.finished (.error .apiMissing), params) }
          else
            let merged := mergePromptOpts st0.opts params
            { m with st := st0, callers := m.callers.set i (.atParams merged, params) }
    | .atParams merged =>
      -- resumed from `await this._getTuningParams`: this.opts is re-read here
      let tk := getTuningParams (params.bind (·.temperature))
        (params.bind (·.topK)) m.st.opts.temperature m.st.opts.topK mp
      let merged2 := { merged with temperature := tk.1, topK := tk.2 }
      let pid := m.nextPid
      { st := { m.st with creating := some pid },
        callers := m.callers.set i (.awaitingCreate pid merged2, params),
        createCalls := m.createCalls + 1,
        nextPid := m.nextPid + 1 }
    | _ => m

/-- Resume one caller when promise `pid` settles. -/
def resumeOnSettle (outcome : Except Unit Nat) (pid : Nat) :
    PCallerPC × Option PromptCreateParams → PCallerPC × Option PromptCreateParams
  | (.awaitingCreate p m2, params) =>
    if p = pid then
      (.finished (match outcome with
        | .ok _ => .ok ()
        | .error _ => .error .createFailed), params)
    else (.awaitingCreate p m2, params)
  | (.awaitingOther p, params) =>
    if p = pid then
      (.finished (match outcome with
        | .ok _ => .ok ()
        | .error _ => .error .createFailed), params)
    else (.awaitingOther p, params)
  | c => c

/-- Settle create-promise `pid`: run its `.then` handler (store the session
and persist that caller's merged options) on success, then the `.finally`
handler (`this.creating = undefined`, unconditionally), then resume every
caller awaiting `pid`. -/
def promptSettle (m : PromptMachine) (pid : Nat) (outcome : Except Unit Nat) :
    PromptMachine :=
  let merged2 := (m.callers.find? (fun c =>
    match c.1 with
    | .awaitingCreate p _ => p = pid
    | _ => false)).bind (fun c =>
      match c.1 with
      | .awaitingCreate _ m2 => some m2
      | _ => none)
  let st1 :=
    match outcome with
    | .ok s =>
      { m.st with session := some s
                  opts := merged2.getD m.st.opts }
    | .error _ => m.st
  let st2 := { st1 with creating := none }
  { m with st := st2, callers := m.callers.map (resumeOnSettle outcome pid) }

inductive PEvent where
  | runCaller (i : Nat)
  | settle (pid : Nat) (outcome : Except Unit Nat)
deriving Repr

def runPromptSchedule (hasLM : Bool) (mp : LMParams) (events : List PEvent)
    (m : PromptMachine) : PromptMachine :=
  events.foldl
    (fun m e =>
      match e with
      | .runCaller i => promptStepCaller hasLM mp m i
      | .settle pid outcome => promptSettle m pid outcome)
    m

/-- Two callers invoking initFromUserGesture concurrently on a fresh
PromptClient. -/
def promptFreshMachine : PromptMachine :=
  { st := promptFresh
    callers := [(.start, none), (.start, none)]
    createCalls := 0
    nextPid := 0 }

/-- Representative LanguageModel.params() answer (Chrome reports
defaultTopK 3, maxTopK 8, defaultTemperature 1, maxTemperature 2). -/
def lmParamsChrome : LMParams :=
  { defaultTopK := some (.num 3), maxTopK := some (.num 8),
    defaultTemperature := some (.num 1), maxTemperature := some (.num 2) }

/-- The racing schedule: caller 0 enters and suspends at
`await this._getTuningParams`, caller 1 enters (and likewise suspends)
before caller 0 resumes, then both resume. -/
def promptRaceRun : PromptMachine :=
  runPromptSchedule true lmParamsChrome
    [.runCaller 0, .runCaller 1, .runCaller 0, .runCaller 1]
    promptFreshMachine

/-! ## Concrete hosts and inputs used by witnesses and counterexamples -/

/-- Host exposing no capability namespace at all. -/
def hostAbsent : ModelHost := ⟨none⟩

/-- Host whose backend reports "available" and whose create() resolves to
session 7. -/
def hostOk7 : ModelHost := ⟨some ⟨some (.ok "available"), .ok 7⟩⟩

/-- Host whose create() rejects. -/
def hostFail : ModelHost := ⟨some ⟨some (.ok "available"), .error ()⟩⟩

/-- Writer init override used by the C6 counterexample. -/
def formalParams : WriterCreateParams := { tone := some "formal" }

/-- LanguageModel.params() answer with a fractional positive maxTopK,
used by the C10 counterexample. -/
def lmParamsHalf : LMParams :=
  { defaultTopK := some (.num 3), maxTopK := some (.num (1/2)),
    defaultTemperature := some (.num 1), maxTemperature := some (.num 2) }

/-! # Claims -/

/-- C4: the capability probe never raises: it is a total function; when the
host exposes no capability namespace it returns "no-api" with zero backend
availability() invocations; when the backend availability query throws it
returns "unavailable" — which is not the ready state "available". -/
theorem capability_probe_fail_safe :
    (∀ ks : List String, checkModelAvailability none ks = ("no-api", 0)) ∧
    (∀ (ks : List String) (c : Except Unit Nat),
      checkModelAvailability (some ⟨some (.error ()), c⟩) ks = ("unavailable", 1) ∧
      (checkModelAvailability (some ⟨some (.error ()), c⟩) ks).1 ≠ "available") := by
  refine ⟨fun ks => rfl, fun ks c => ⟨rfl, ?_⟩⟩
  simp [checkModelAvailability]

/-- C9: the sequence returned by generateStatementStream never raises (it is
a total function into fragment lists), and on generator failure it yields
exactly the single terminal diagnostic fragment "Error generating statement."
and then ends. -/
theorem statement_stream_absorbs_errors :
    ∀ (wantsFalse : Bool) (e : Unit),
      (generateStatementStream wantsFalse (.error e)).1 =
        ["Error generating statement."] ∧
      (generateStatementStream wantsFalse (.error e)).1.length = 1 := by
  intro wantsFalse e
  exact ⟨rfl, rfl⟩

/-- C1: two callers invoking initFromUserGesture concurrently on a fresh
PromptClient, the second entering before the first resumes from `await
this._getTuningParams(params)`, each pass the `this.session` /
`this.creating` checks and each invoke the backend: two `create()` calls
occur, not the exactly one the claim states. -/
theorem prompt_init_race_two_creates :
    promptRaceRun.createCalls = 2 ∧ promptRaceRun.createCalls ≠ 1 := by
  constructor
  · rfl
  · decide

/-- C2: on a client whose session is non-null, initFromUserGesture with any
parameters returns immediately with zero backend create() calls, leaving the
session and the stored options unchanged (only the availability cache is
reset), for the prompt, writer and summarizer clients alike. -/
theorem ready_session_acquire_is_noop
    (pst : PromptState) (pp : Option PromptCreateParams) (host : ModelHost)
    (mp : LMParams) (wst : WriterState) (wp : Option WriterCreateParams)
    (sst : SummarizerState) (sp : Option SummarizerCreateParams)
    (hp : pst.session.isSome = true) (hw : wst.session.isSome = true)
    (hs : sst.session.isSome = true) :
    promptInit pst pp host mp = ({ pst with availabilityStatus := none }, .ok (), 0) ∧
    writerInit wst wp host = ({ wst with availabilityStatus := none }, .ok (), 0) ∧
    summarizerInit sst sp host = ({ sst with availabilityStatus := none }, .ok (), 0) := by
  refine ⟨?_, ?_, ?_⟩
  · simp [promptInit, hp]
  · simp [writerInit, hw]
  · simp [summarizerInit, hs]

/-- C2 witness: concrete already-initialized clients. -/
theorem ready_session_acquire_is_noop_witness :
    promptInit { promptFresh with session := some 5 } none hostOk7 lmParamsChrome
      = ({ promptFresh with session := some 5 }, .ok (), 0) ∧
    writerInit { writerFresh with session := some 5 } (some formalParams) hostOk7
      = ({ writerFresh with session := some 5 }, .ok (), 0) ∧
    summarizerInit { summarizerFresh with session := some 5 } none hostOk7
      = ({ summarizerFresh with session := some 5 }, .ok (), 0) :=
  ready_session_acquire_is_noop
    { promptFresh with session := some 5 } none hostOk7 lmParamsChrome
    { writerFresh with session := some 5 } (some formalParams)
    { summarizerFresh with session := some 5 } none rfl rfl rfl

/-- C3: getPairForCard on a card id not yet cached invokes the generator
(the two concurrent sentence generations) exactly once, stores the pair, and
a second call for the same card returns the identical stored pair with zero
further generator invocations — one invocation in total across both calls. -/
theorem pair_cache_generates_once
    (cache : List (Nat × GeneratedPair)) (card : Card) (i : Nat)
    (g1 g2 : GeneratedPair) (hid : card.id = some i) (hi : i ≠ 0)
    (hmiss : pairLookup i cache = none) :
    getPairForCard cache card g1 = .ok ((i, g1) :: cache, g1, 1) ∧
    getPairForCard ((i, g1) :: cache) card g2 = .ok ((i, g1) :: cache, g1, 0) := by
  constructor
  · simp [getPairForCard, hid, hi, hmiss]
  · simp [getPairForCard, hid, hi, pairLookup, List.find?]

/-- C3 witness: a fresh cache and card 1. -/
theorem pair_cache_generates_once_witness :
    getPairForCard [] ⟨some 1, "f", "c"⟩ ⟨"t", "f"⟩ =
      .ok ([(1, ⟨"t", "f"⟩)], ⟨"t", "f"⟩, 1) ∧
    getPairForCard [(1, ⟨"t", "f"⟩)] ⟨some 1, "f", "c"⟩ ⟨"other", "pair"⟩ =
      .ok ([(1, ⟨"t", "f"⟩)], ⟨"t", "f"⟩, 0) :=
  pair_cache_generates_once [] ⟨some 1, "f", "c"⟩ 1 ⟨"t", "f"⟩ ⟨"other", "pair"⟩
    rfl (by decide) rfl

/-- C5: on an initialized client, every streaming entry point returns the
already-finished empty sequence — zero fragments, no backend session call —
whenever its input text is empty after trimming. -/
theorem empty_input_streams_skip_backend
    (ws ss ps : Nat) (hasStreamFn : Bool) (text builtText : List Char)
    (hT : jsTrim text = []) (hB : jsTrim builtText = []) :
    writeStreaming (some ws) text = .ok .emptyStream ∧
    summarizeStreaming (some ss) hasStreamFn text = .ok .emptyStream ∧
    runStreamingPrompt (some ps) builtText = .ok .emptyStream ∧
    ∀ backend, streamFragments backend .emptyStream = [] := by
  refine ⟨?_, ?_, ?_, fun _ => rfl⟩ <;>
    simp [writeStreaming, summarizeStreaming, runStreamingPrompt, hT, hB,
      collapseWs]

/-- C5 witness: whitespace-only input on concrete sessions. -/
theorem empty_input_streams_skip_backend_witness :
    writeStreaming (some 7) " \t\n ".data = .ok .emptyStream ∧
    summarizeStreaming (some 7) true " \t\n ".data = .ok .emptyStream ∧
    runStreamingPrompt (some 7) "".data = .ok .emptyStream ∧
    ∀ backend, streamFragments backend .emptyStream = [] :=
  empty_input_streams_skip_backend 7 7 7 true " \t\n ".data "".data
    (by decide) (by decide)

/-- Helper: the probe answers "no-api" only when the capability namespace is
genuinely absent, provided either "no-api" is not among the recognized
states (writer, summarizer) or the backend never reports the literal string
"no-api" (any real backend). -/
lemma probe_no_api_means_absent (api : Option ModelApi) (ks : List String)
    (hside : ks.contains "no-api" = false ∨
      ∀ a, api = some a → a.availabilityFn ≠ some (.ok "no-api"))
    (h : (checkModelAvailability api ks).1 = "no-api") : api = none := by
  cases api with
  | none => rfl
  | some a =>
    exfalso
    cases hf : a.availabilityFn with
    | none => simp [checkModelAvailability, hf] at h
    | some r =>
      cases r with
      | ok s =>
        simp only [checkModelAvailability, hf] at h
        by_cases hc : ks.contains s
        · rw [if_pos hc] at h
          simp only at h
          subst h
          rcases hside with hside | hside
          · rw [hside] at hc; exact absurd hc (by decide)
          · exact hside a rfl hf
        · rw [if_neg hc] at h
          simp at h
      | error e => simp [checkModelAvailability, hf] at h

/-- Helper: initFromUserGesture performs zero create() calls when the writer
namespace is absent. -/
lemma writerInit_absent_no_create (st : WriterState)
    (p : Option WriterCreateParams) (host : ModelHost) (h : host.api = none) :
    (writerInit st p host).2.2 = 0 := by
  simp only [writerInit, h]
  split
  · rfl
  · split <;> rfl

/-- Helper: initFromUserGesture performs zero create() calls when the
summarizer namespace is absent. -/
lemma summarizerInit_absent_no_create (st : SummarizerState)
    (p : Option SummarizerCreateParams) (host : ModelHost) (h : host.api = none) :
    (summarizerInit st p host).2.2 = 0 := by
  simp only [summarizerInit, h]
  split
  · rfl
  · split <;> rfl

/-- Helper: initFromUserGesture performs zero create() calls when the
LanguageModel namespace is absent. -/
lemma promptInit_absent_no_create (st : PromptState)
    (p : Option PromptCreateParams) (host : ModelHost) (mp : LMParams)
    (h : host.api = none) : (promptInit st p host mp).2.2 = 0 := by
  simp only [promptInit, h]
  split
  · rfl
  · split <;> rfl

/-- C7: when the probe has observed "no-api" (NoBackend) for a kind, the
host exposes no namespace for that kind, and on such a host every later
initFromUserGesture call for that kind throws before reaching the backend:
zero create() calls occur, re-probe or not. For the prompt client — whose
recognized-state list itself contains "no-api" — this additionally assumes
the backend availability query never answers the literal string "no-api"
(no real backend does). -/
theorem no_backend_observed_blocks_creation (host : ModelHost) :
    ((checkModelAvailability host.api writerKnownStates).1 = "no-api" →
      ∀ st p, (writerInit st p host).2.2 = 0) ∧
    ((checkModelAvailability host.api summarizerKnownStates).1 = "no-api" →
      ∀ st p, (summarizerInit st p host).2.2 = 0) ∧
    ((∀ a, host.api = some a → a.availabilityFn ≠ some (.ok "no-api")) →
      (checkModelAvailability host.api promptKnownStates).1 = "no-api" →
      ∀ st p mp, (promptInit st p host mp).2.2 = 0) := by
  refine ⟨fun h st p => ?_, fun h st p => ?_, fun hne h st p mp => ?_⟩
  · exact writerInit_absent_no_create st p host
      (probe_no_api_means_absent host.api writerKnownStates (.inl (by decide)) h)
  · exact summarizerInit_absent_no_create st p host
      (probe_no_api_means_absent host.api summarizerKnownStates (.inl (by decide)) h)
  · exact promptInit_absent_no_create st p host mp
      (probe_no_api_means_absent host.api promptKnownStates (.inr hne) h)

/-- C7 witness: the absent host. -/
theorem no_backend_observed_blocks_creation_witness :
    (writerInit writerFresh none hostAbsent).2.2 = 0 ∧
    (summarizerInit summarizerFresh none hostAbsent).2.2 = 0 ∧
    (promptInit promptFresh none hostAbsent lmParamsChrome).2.2 = 0 :=
  ⟨(no_backend_observed_blocks_creation hostAbsent).1 rfl writerFresh none,
   (no_backend_observed_blocks_creation hostAbsent).2.1 rfl summarizerFresh none,
   (no_backend_observed_blocks_creation hostAbsent).2.2
     (fun a ha => by simp [hostAbsent] at ha) rfl promptFresh none lmParamsChrome⟩

/-- C8: when the backend create() call rejects during initFromUserGesture,
the client ends with a null session and a cleared in-flight marker
(Uninitialized), the caller sees the failure, and a subsequent
initFromUserGesture attempts creation again (one further create() call)
rather than being stuck — shown for the writer and prompt clients. -/
theorem create_failure_resets_and_allows_retry
    (wst : WriterState) (wp : Option WriterCreateParams)
    (pst : PromptState) (pp : Option PromptCreateParams) (mp : LMParams)
    (aF aS : ModelApi) (s2 : Nat)
    (hwse : wst.session = none) (hwcr : wst.creating = false)
    (hpse : pst.session = none) (hpcr : pst.creating = none)
    (hF : aF.createOutcome = .error ()) (hS : aS.createOutcome = .ok s2) :
    ((writerInit wst wp ⟨some aF⟩).1.session = none ∧
     (writerInit wst wp ⟨some aF⟩).1.creating = false ∧
     (writerInit wst wp ⟨some aF⟩).2.1 = .error .createFailed ∧
     (writerInit wst wp ⟨some aF⟩).2.2 = 1 ∧
     (writerInit (writerInit wst wp ⟨some aF⟩).1 wp ⟨some aS⟩).2.2 = 1 ∧
     (writerInit (writerInit wst wp ⟨some aF⟩).1 wp ⟨some aS⟩).1.session = some s2) ∧
    ((promptInit pst pp ⟨some aF⟩ mp).1.session = none ∧
     (promptInit pst pp ⟨some aF⟩ mp).1.creating = none ∧
     (promptInit pst pp ⟨some aF⟩ mp).2.1 = .error .createFailed ∧
     (promptInit pst pp ⟨some aF⟩ mp).2.2 = 1 ∧
     (promptInit (promptInit pst pp ⟨some aF⟩ mp).1 pp ⟨some aS⟩ mp).2.2 = 1 ∧
     (promptInit (promptInit pst pp ⟨some aF⟩ mp).1 pp ⟨some aS⟩ mp).1.session
        = some s2) := by
  have hw : writerInit wst wp ⟨some aF⟩ =
      ({ wst with availabilityStatus := none, creating := false },
        .error .createFailed, 1) := by
    simp [writerInit, hwse, hwcr, hF]
  have hp : promptInit pst pp ⟨some aF⟩ mp =
      ({ pst with availabilityStatus := none, creating := none },
        .error .createFailed, 1) := by
    simp [promptInit, hpse, hpcr, hF]
  refine ⟨?_, ?_⟩
  · rw [hw]
    refine ⟨hwse, rfl, rfl, rfl, ?_, ?_⟩ <;> simp [writerInit, hwse, hS]
  · rw [hp]
    refine ⟨hpse, rfl, rfl, rfl, ?_, ?_⟩ <;> simp [promptInit, hpse, hS]

/-- C8 witness: fresh writer and prompt clients against a rejecting host,
then a succeeding one. -/
theorem create_failure_resets_and_allows_retry_witness :
    ((writerInit writerFresh none ⟨some ⟨some (.ok "available"), .error ()⟩⟩).1.session
        = none ∧
     (writerInit writerFresh none ⟨some ⟨some (.ok "available"), .error ()⟩⟩).1.creating
        = false ∧
     (writerInit writerFresh none ⟨some ⟨some (.ok "available"), .error ()⟩⟩).2.1
        = .error .createFailed ∧
     (writerInit writerFresh none ⟨some ⟨some (.ok "available"), .error ()⟩⟩).2.2 = 1 ∧
     (writerInit (writerInit writerFresh none
        ⟨some ⟨some (.ok "available"), .error ()⟩⟩).1 none
        ⟨some ⟨some (.ok "available"), .ok 7⟩⟩).2.2 = 1 ∧
     (writerInit (writerInit writerFresh none
        ⟨some ⟨some (.ok "available"), .error ()⟩⟩).1 none
        ⟨some ⟨some (.ok "available"), .ok 7⟩⟩).1.session = some 7) ∧
    ((promptInit promptFresh none ⟨some ⟨some (.ok "available"), .error ()⟩⟩
        lmParamsChrome).1.session = none ∧
     (promptInit promptFresh none ⟨some ⟨some (.ok "available"), .error ()⟩⟩
        lmParamsChrome).1.creating = none ∧
     (promptInit promptFresh none ⟨some ⟨some (.ok "available"), .error ()⟩⟩
        lmParamsChrome).2.1 = .error .createFailed ∧
     (promptInit promptFresh none ⟨some ⟨some (.ok "available"), .error ()⟩⟩
        lmParamsChrome).2.2 = 1 ∧
     (promptInit (promptInit promptFresh none
        ⟨some ⟨some (.ok "available"), .error ()⟩⟩ lmParamsChrome).1 none
        ⟨some ⟨some (.ok "available"), .ok 7⟩⟩ lmParamsChrome).2.2 = 1 ∧
     (promptInit (promptInit promptFresh none
        ⟨some ⟨some (.ok "available"), .error ()⟩⟩ lmParamsChrome).1 none
        ⟨some ⟨some (.ok "available"), .ok 7⟩⟩ lmParamsChrome).1.session = some 7) :=
  create_failure_resets_and_allows_retry writerFresh none promptFresh none
    lmParamsChrome ⟨some (.ok "available"), .error ()⟩
    ⟨some (.ok "available"), .ok 7⟩ 7 rfl rfl rfl rfl rfl rfl

/-- C6 counterexample: a successful writer acquisition with an overriding
tone does NOT make the effective options the stored baseline — the writer
client's stored options keep the old tone while the options actually used
for creation carried the new one. -/
theorem writer_opts_not_persisted_counterexample :
    (writerInit writerFresh (some formalParams) hostOk7).2.1 = .ok () ∧
    (mergeWriterOpts defaultWriterOpts (some formalParams)).tone = "formal" ∧
    (writerInit writerFresh (some formalParams) hostOk7).1.opts.tone = "casual" ∧
    ("casual" : String) ≠ "formal" := by
  refine ⟨rfl, rfl, rfl, by decide⟩

/-- C6 amended: only the prompt client persists the effective creation
options (defaults merged with the call's parameters, sampling parameters
sanitized) as its new stored baseline on success; the writer and summarizer
clients keep their previous stored options unchanged. -/
theorem effective_opts_persistence
    (pst : PromptState) (pp : Option PromptCreateParams) (host : ModelHost)
    (mp : LMParams) (a : ModelApi) (s : Nat)
    (wst : WriterState) (wp : Option WriterCreateParams)
    (sst : SummarizerState) (sp : Option SummarizerCreateParams)
    (hpse : pst.session = none) (hpcr : pst.creating = none)
    (ha : host.api = some a) (hok : a.createOutcome = .ok s) :
    (promptInit pst pp host mp).1.opts = promptEffectiveOpts pst.opts pp mp ∧
    (promptInit pst pp host mp).1.session = some s ∧
    (writerInit wst wp host).1.opts = wst.opts ∧
    (summarizerInit sst sp host).1.opts = sst.opts := by
  refine ⟨?_, ?_, ?_, ?_⟩
  · simp [promptInit, hpse, hpcr, ha, hok]
  · simp [promptInit, hpse, hpcr, ha, hok]
  · simp only [writerInit, ha]
    split
    · rfl
    · split
      · rfl
      · rw [hok]
  · simp only [summarizerInit, ha]
    split
    · rfl
    · split
      · rfl
      · rw [hok]

/-- C6 amended witness: fresh clients against a succeeding host. -/
theorem effective_opts_persistence_witness :
    (promptInit promptFresh none hostOk7 lmParamsChrome).1.opts
      = promptEffectiveOpts promptFresh.opts none lmParamsChrome ∧
    (promptInit promptFresh none hostOk7 lmParamsChrome).1.session = some 7 ∧
    (writerInit writerFresh (some formalParams) hostOk7).1.opts
      = writerFresh.opts ∧
    (summarizerInit summarizerFresh none hostOk7).1.opts
      = summarizerFresh.opts :=
  effective_opts_persistence promptFresh none hostOk7 lmParamsChrome
    ⟨some (.ok "available"), .ok 7⟩ 7 writerFresh (some formalParams)
    summarizerFresh none rfl rfl rfl rfl

/-- Helper: clamping a non-NaN temperature into [0, maxT] (promptClient.ts
134-139) really lands in [0, maxT] when maxT is a non-negative number. -/
lemma clampTemp_bounds (x : JSNum) (M : ℚ) (hx : x ≠ .nan) (hM : 0 ≤ M) :
    ∃ t : ℚ, clampTemp x (.num M) = .num t ∧ 0 ≤ t ∧ t ≤ M := by
  cases x with
  | nan => exact absurd rfl hx
  | inf =>
    refine ⟨M, ?_, hM, le_refl M⟩
    simp [clampTemp, JSNum.lt]
  | ninf =>
    refine ⟨0, ?_, le_refl 0, hM⟩
    simp [clampTemp, JSNum.lt, not_lt.mpr hM]
  | num q =>
    by_cases h0 : q < 0
    · refine ⟨0, ?_, le_refl 0, hM⟩
      simp [clampTemp, JSNum.lt, h0, not_lt.mpr hM]
    · by_cases hMq : M < q
      · refine ⟨M, ?_, hM, le_refl M⟩
        simp [clampTemp, JSNum.lt, h0, hMq]
      · refine ⟨q, ?_, not_lt.mp h0, not_lt.mp hMq⟩
        simp [clampTemp, JSNum.lt, h0, hMq]

/-- Helper: rounding then clamping a non-NaN topK into [1, maxTopK]
(promptClient.ts 118-124) yields an integer in [1, maxTopK] when maxTopK is
an integer ≥ 1. -/
lemma clampTopK_round_bounds (x : JSNum) (z : ℤ) (hx : x ≠ .nan) (hz : 1 ≤ z) :
    ∃ w : ℤ, clampTopK (jsRound x) (.num (z:ℚ)) = .num (w:ℚ) ∧ 1 ≤ w ∧ w ≤ z := by
  have hz1 : ¬ ((z:ℚ) < 1) := by exact_mod_cast not_lt.mpr hz
  cases x with
  | nan => exact absurd rfl hx
  | inf =>
    refine ⟨z, ?_, hz, le_refl z⟩
    simp [clampTopK, jsRound, JSNum.lt]
  | ninf =>
    refine ⟨1, ?_, le_refl 1, hz⟩
    simp [clampTopK, jsRound, JSNum.lt, hz1]
  | num q =>
    have e1 : jsRound (.num q) = .num ((⌊q + 1/2⌋ : ℤ) : ℚ) := rfl
    by_cases h1 : ((⌊q + 1/2⌋ : ℤ) : ℚ) < 1
    · refine ⟨1, ?_, le_refl 1, hz⟩
      rw [e1]
      unfold clampTopK
      simp only [JSNum.lt, decide_eq_true_eq]
      rw [if_pos h1]
      simp only [JSNum.lt, decide_eq_true_eq]
      rw [if_neg hz1]
      norm_num
    · by_cases hc : ((z:ℚ)) < ((⌊q + 1/2⌋ : ℤ) : ℚ)
      · refine ⟨z, ?_, hz, le_refl z⟩
        rw [e1]
        unfold clampTopK
        simp only [JSNum.lt, decide_eq_true_eq]
        rw [if_neg h1]
        simp only [JSNum.lt, decide_eq_true_eq]
        rw [if_pos hc]
      · refine ⟨⌊q + 1/2⌋, ?_, ?_, ?_⟩
        · rw [e1]
          unfold clampTopK
          simp only [JSNum.lt, decide_eq_true_eq]
          rw [if_neg h1]
          simp only [JSNum.lt, decide_eq_true_eq]
          rw [if_neg hc]
        · exact_mod_cast not_lt.mp h1
        · exact_mod_cast not_lt.mp hc

/-- Helper: the selected temperature is never NaN when the model's default
temperature is not NaN. -/
lemma tempSelected_ne_nan (pTemp oTemp : Option JSNum) (mp : LMParams)
    (hdt : mp.defaultTemperature ≠ some .nan) :
    tempSelected pTemp oTemp mp ≠ .nan := by
  have hd : mp.defaultTemperature.getD (.num 1) ≠ .nan := by
    cases h : mp.defaultTemperature with
    | none => simp
    | some v =>
      cases v with
      | nan => exact absurd h hdt
      | num q => simp
      | inf => simp
      | ninf => simp
  unfold tempSelected
  cases hsel : jsOr (jsOr pTemp oTemp) mp.defaultTemperature with
  | none => exact hd
  | some t =>
    by_cases hf : t.isFinite
    · cases t with
      | num q => simp [hf]
      | nan => simp [JSNum.isFinite] at hf
      | inf => simp [JSNum.isFinite] at hf
      | ninf => simp [JSNum.isFinite] at hf
    · simpa [hf] using hd

/-- Helper: the selected topK is never NaN when the model reports a non-NaN
default topK. -/
lemma topKSelected_ne_nan (pTopK oTopK : Option JSNum) (mp : LMParams)
    (d : JSNum) (hd : mp.defaultTopK = some d) (hdn : d ≠ .nan) :
    topKSelected pTopK oTopK mp ≠ .nan := by
  have hgd : mp.defaultTopK.getD .nan ≠ .nan := by
    rw [hd]; simpa using hdn
  unfold topKSelected
  cases hsel : jsOr (jsOr pTopK oTopK) mp.defaultTopK with
  | none => exact hgd
  | some k =>
    by_cases hf : k.isFinite
    · cases k with
      | num q => simp [hf]
      | nan => simp [JSNum.isFinite] at hf
      | inf => simp [JSNum.isFinite] at hf
      | ninf => simp [JSNum.isFinite] at hf
    · simpa [hf] using hgd

/-- C10 counterexample: `maxTopK = 0.5` is a finite positive number, so the
sanitizer takes the supported branch — yet with caller topK 3 it returns
topK 0.5, which is neither an integer nor ≥ 1, refuting the claimed
`1 ≤ topK` range as stated. -/
theorem tuning_params_claim_counterexample :
    JSNum.isFinite (.num (1/2)) = true ∧
    JSNum.lt (.num 0) (.num (1/2)) = true ∧
    (getTuningParams none (some (.num 3)) none none lmParamsHalf).2
      = some (.num (1/2)) ∧
    ¬ ((1:ℚ) ≤ 1/2) := by
  have hfloor : (⌊(3:ℚ) + 1/2⌋ : ℤ) = 3 := by
    rw [Int.floor_eq_iff]
    norm_num
  have hsel : JSNum.lt (.num 0) (.num (1/2)) = true := by
    simp only [JSNum.lt, decide_eq_true_eq]
    norm_num
  refine ⟨rfl, hsel, ?_, by norm_num⟩
  have h1 : topKSelected (some (.num 3)) none lmParamsHalf = .num 3 := rfl
  have h2 : jsRound (.num 3) = .num ((3:ℤ):ℚ) := by
    simp only [jsRound, hfloor]
  have hA : ¬ (((3:ℤ):ℚ) < 1) := by norm_num
  have hB : (1/2 : ℚ) < ((3:ℤ):ℚ) := by norm_num
  have h3 : clampTopK (.num ((3:ℤ):ℚ)) (.num (1/2)) = .num (1/2) := by
    unfold clampTopK
    simp only [JSNum.lt, decide_eq_true_eq]
    rw [if_neg hA]
    simp only [JSNum.lt, decide_eq_true_eq]
    rw [if_pos hB]
  have hmax : lmParamsHalf.maxTopK = some (.num (1/2)) := rfl
  unfold getTuningParams
  simp only [hmax]
  rw [if_pos hsel, h1, h2, h3]

/-- C10 amended: when the model reports no topK support (absent or
non-positive maxTopK) both tuning values are omitted; when the model reports
an integer maxTopK ≥ 1, a non-NaN default topK, a non-NaN default
temperature, and a non-negative (or absent, defaulting to 2) maxTemperature,
the returned topK is an integer with 1 ≤ topK ≤ maxTopK and the returned
temperature satisfies 0 ≤ temperature ≤ maxTemperature; non-finite caller
values are replaced by the model defaults. -/
theorem tuning_params_sanitized_bounds
    (pTemp pTopK oTemp oTopK : Option JSNum) (mp : LMParams)
    (hdk : ∃ d, mp.defaultTopK = some d ∧ d ≠ .nan)
    (hdt : mp.defaultTemperature ≠ some .nan)
    (hmt : mp.maxTemperature = none ∨
      ∃ M : ℚ, 0 ≤ M ∧ mp.maxTemperature = some (.num M)) :
    (mp.maxTopK = none →
      getTuningParams pTemp pTopK oTemp oTopK mp = (none, none)) ∧
    (∀ m, mp.maxTopK = some m → JSNum.lt (.num 0) m = false →
      getTuningParams pTemp pTopK oTemp oTopK mp = (none, none)) ∧
    (∀ z : ℤ, 1 ≤ z → mp.maxTopK = some (.num (z:ℚ)) →
      ∃ (t : ℚ) (w : ℤ) (M : ℚ),
        getTuningParams pTemp pTopK oTemp oTopK mp
          = (some (.num t), some (.num (w:ℚ))) ∧
        mp.maxTemperature.getD (.num 2) = .num M ∧
        0 ≤ t ∧ t ≤ M ∧ 1 ≤ w ∧ w ≤ z) ∧
    (∀ v, v.isFinite = false →
      topKSelected (some v) oTopK mp = mp.defaultTopK.getD .nan ∧
      tempSelected (some v) oTemp mp = mp.defaultTemperature.getD (.num 1)) := by
  obtain ⟨d, hd, hdn⟩ := hdk
  refine ⟨?_, ?_, ?_, ?_⟩
  · intro h
    simp [getTuningParams, h]
  · intro m hm hlt
    simp [getTuningParams, hm, hlt]
  · intro z hz hm
    have hMex : ∃ M : ℚ, mp.maxTemperature.getD (.num 2) = .num M ∧ 0 ≤ M := by
      rcases hmt with h | ⟨M, hM0, hM⟩
      · exact ⟨2, by simp [h], by norm_num⟩
      · exact ⟨M, by simp [hM], hM0⟩
    obtain ⟨M, hMeq, hM0⟩ := hMex
    obtain ⟨t, hteq, ht0, htM⟩ :=
      clampTemp_bounds (tempSelected pTemp oTemp mp) M
        (tempSelected_ne_nan pTemp oTemp mp hdt) hM0
    obtain ⟨w, hweq, hw1, hwz⟩ :=
      clampTopK_round_bounds (topKSelected pTopK oTopK mp) z
        (topKSelected_ne_nan pTopK oTopK mp d hd hdn) hz
    have hpos : JSNum.lt (.num 0) (.num (z:ℚ)) = true := by
      have : (0:ℚ) < (z:ℚ) := by exact_mod_cast lt_of_lt_of_le one_pos hz
      simp [JSNum.lt, this]
    refine ⟨t, w, M, ?_, hMeq, ht0, htM, hw1, hwz⟩
    simp only [getTuningParams, hm, hpos, if_true, hMeq, hteq, hweq]
  · intro v hv
    constructor
    · simp [topKSelected, jsOr, hv]
    · simp [tempSelected, jsOr, hv]

/-- C10 amended witness: Chrome-like model parameters (maxTopK 8) with a
non-finite caller topK. -/
theorem tuning_params_sanitized_bounds_witness :
    (∀ m, lmParamsChrome.maxTopK = some m → JSNum.lt (.num 0) m = false →
      getTuningParams none (some .nan) none none lmParamsChrome = (none, none)) ∧
    (∃ (t : ℚ) (w : ℤ) (M : ℚ),
      getTuningParams none (some .nan) none none lmParamsChrome
        = (some (.num t), some (.num (w:ℚ))) ∧
      lmParamsChrome.maxTemperature.getD (.num 2) = .num M ∧
      0 ≤ t ∧ t ≤ M ∧ 1 ≤ w ∧ w ≤ 8) ∧
    topKSelected (some .nan) none lmParamsChrome
      = lmParamsChrome.defaultTopK.getD .nan := by
  have h := tuning_params_sanitized_bounds none (some .nan) none none
    lmParamsChrome ⟨.num 3, rfl, by simp⟩ (by simp [lmParamsChrome])
    (.inr ⟨2, by norm_num, rfl⟩)
  exact ⟨h.2.1, h.2.2.1 8 (by norm_num) rfl, (h.2.2.2 .nan rfl).1⟩

end LearningBuddy
